import Mathlib

/-
Verification of the ship-fast credit ledger (credits-manager) and the
media fetch-and-publish pipeline (video-processor), modelled as a shallow
embedding.  The remote database (supabase) is modelled as an explicit
state value; the possible failures of the individual supabase calls
(profile fetch, profile update, transaction insert, transaction update)
are modelled by an explicit fault environment.  JavaScript truthiness of
optional strings (empty string is falsy) is modelled by optTruthy.
-/

namespace ShipFast

/-- Does the second character list occur as a prefix of the first? -/
def listStartsWith : List Char → List Char → Bool
  | _, [] => true
  | [], _ :: _ => false
  | a :: as, b :: bs => a == b && listStartsWith as bs

/-- Does the second character list occur as a contiguous sublist of the first? -/
def listContainsSub : List Char → List Char → Bool
  | [], ns => listStartsWith [] ns
  | a :: as, ns => listStartsWith (a :: as) ns || listContainsSub as ns

/-- Substring containment on strings; models both the SQL like filter
with percent wildcards on both sides and the informal phrase
"description contains". -/
def strContains (haystack needle : String) : Bool :=
  listContainsSub haystack.data needle.data

/-- JavaScript truthiness of an optional string value: present and nonempty. -/
def optTruthy : Option String → Bool
  | some s => s != ""
  | none => false

/-- JavaScript expression `x || null` on an optional string field. -/
def jsOrNull (o : Option String) : Option String :=
  if optTruthy o then o else none

/-- JavaScript Boolean-or on two optional string fields: the first when
truthy, the second otherwise. -/
def jsOrStr (a b : Option String) : Option String :=
  if optTruthy a then a else b

/-- A row of the user_profiles table, restricted to the columns the
credits manager reads or writes, plus an abstract bag otherCols standing
for every further column of the row (email, full_name, plan_type, ...). -/
structure Profile where
  credits : Int
  total_credits_spent : Option Int
  total_videos_created : Option Int
  updated_at : Nat
  otherCols : List (String × String)
deriving DecidableEq

/-- A row of the credit_transactions table, restricted to the columns
the credits manager writes or filters on. -/
structure TxRow where
  user_id : String
  transaction_type : String
  amount : Int
  description : String
  task_id : Option String := none
  video_id : Option String := none
  check_in_id : Option String := none
  referral_id : Option String := none
  free_credits_type : Option String := none
  created_at : Nat := 0
deriving DecidableEq

/-- The database state seen by the credits manager. -/
structure DB where
  profiles : List (String × Profile)
  transactions : List TxRow
deriving DecidableEq

/-- Fault environment: which of the supabase calls made by a credits
manager operation report an error. -/
structure Env where
  profileFetchError : Bool
  profileUpdateError : Bool
  txInsertError : Bool
  txUpdateError : Bool
deriving DecidableEq

/-- Fetch the profile row with the given id (select ... eq id ... single). -/
def lookupProfile (db : DB) (userId : String) : Option Profile :=
  (db.profiles.find? (fun x => x.1 == userId)).map (fun x => x.2)

/-- Update the profile row with the given id to the given value
(update ... eq id). -/
def writeProfile (db : DB) (userId : String) (q : Profile) : DB :=
  { db with profiles := db.profiles.map (fun x => if x.1 == userId then (x.1, q) else x) }

/-- Result shape of deductCredits. -/
structure DeductResult where
  success : Bool
  remainingCredits : Option Int := none
  error : Option String := none
deriving DecidableEq

/-- Embedding of deductCredits from the credits manager: read the
profile, fail on fetch error, missing profile or insufficient credits;
otherwise write credits := credits - amount together with the two usage
counters, then insert a usage transaction with the negated amount; an
insert error is logged only and does not fail the operation. -/
def deductCredits (env : Env) (db : DB) (userId : String) (amount : Int)
    (description : String) (taskId : Option String) (now : Nat) :
    DeductResult × DB :=
  if env.profileFetchError then
    ({ success := false, error := some "Failed to fetch user profile" }, db)
  else
    match lookupProfile db userId with
    | none => ({ success := false, error := some "User profile not found" }, db)
    | some profile =>
      if profile.credits < amount then
        ({ success := false, error := some "Insufficient credits" }, db)
      else
        let newCredits := profile.credits - amount
        if env.profileUpdateError then
          ({ success := false, error := some "Failed to update credits" }, db)
        else
          let db1 := writeProfile db userId
            { profile with
              credits := newCredits
              total_credits_spent := some (profile.total_credits_spent.getD 0 + amount)
              total_videos_created := some (profile.total_videos_created.getD 0 + 1) }
          let db2 :=
            if env.txInsertError then db1
            else { db1 with transactions := db1.transactions ++
              [{ user_id := userId
                 transaction_type := "usage"
                 amount := -amount
                 description :=
                   if optTruthy taskId then description ++ " - Task: " ++ taskId.getD ""
                   else description
                 task_id := taskId
                 created_at := now }] }
          ({ success := true, remainingCredits := some newCredits }, db2)

/-- Result shape of refundCredits and addCredits. -/
structure AddResult where
  success : Bool
  newCredits : Option Int := none
  error : Option String := none
deriving DecidableEq

/-- Embedding of refundCredits from the credits manager: read the
profile (fetch error and missing profile share one failure branch),
write credits := credits + amount while clamping total_credits_spent at
a floor of zero, then insert a refund transaction with the positive
amount; an insert error does not fail the operation. -/
def refundCredits (env : Env) (db : DB) (userId : String) (amount : Int)
    (description : String) (taskId : Option String) (videoId : Option String)
    (now : Nat) : AddResult × DB :=
  if env.profileFetchError || (lookupProfile db userId).isNone then
    ({ success := false, error := some "Failed to fetch user profile" }, db)
  else
    match lookupProfile db userId with
    | none => ({ success := false, error := some "Failed to fetch user profile" }, db)
    | some profile =>
      let newCredits := profile.credits + amount
      if env.profileUpdateError then
        ({ success := false, error := some "Failed to refund credits" }, db)
      else
        let db1 := writeProfile db userId
          { profile with
            credits := newCredits
            total_credits_spent := some (max 0 (profile.total_credits_spent.getD 0 - amount)) }
        let db2 :=
          if env.txInsertError then db1
          else { db1 with transactions := db1.transactions ++
            [{ user_id := userId
               video_id := jsOrNull videoId
               transaction_type := "refund"
               amount := amount
               description :=
                 if optTruthy taskId then description ++ " - Task: " ++ taskId.getD ""
                 else description
               task_id := taskId
               created_at := now }] }
        ({ success := true, newCredits := some newCredits }, db2)

/-- Result shape of getUserCredits. -/
structure GetCreditsResult where
  credits : Int
  error : Option String := none
deriving DecidableEq

/-- Embedding of getUserCredits from the credits manager: a pure read
that returns credits 0 together with an error string on a fetch error or
a missing profile, and the profile credits value otherwise (the source
coerces a null credits column to 0 with a Boolean-or; the column is
modelled as a non-null integer, on which the coercion is the identity).
The database is returned unchanged: the operation performs no write. -/
def getUserCredits (env : Env) (db : DB) (userId : String) :
    GetCreditsResult × DB :=
  if env.profileFetchError then
    ({ credits := 0, error := some "Failed to fetch credits" }, db)
  else
    match lookupProfile db userId with
    | none => ({ credits := 0, error := some "Failed to fetch credits" }, db)
    | some profile => ({ credits := profile.credits }, db)

/-- Optional metadata accepted by addCredits. -/
structure AddMeta where
  checkInId : Option String := none
  referralId : Option String := none
  freeCreditsType : Option String := none
deriving DecidableEq

/-- Embedding of addCredits from the credits manager: read the profile,
write credits := credits + amount together with updated_at, then insert
a transaction of the given type with the positive amount, carrying each
metadata correlation field only when it is present and truthy; an
insert error does not fail the operation. -/
def addCredits (env : Env) (db : DB) (userId : String) (amount : Int)
    (description : String) (transactionType : String)
    (metadata : Option AddMeta) (now : Nat) : AddResult × DB :=
  if env.profileFetchError || (lookupProfile db userId).isNone then
    ({ success := false, error := some "Failed to fetch user profile" }, db)
  else
    match lookupProfile db userId with
    | none => ({ success := false, error := some "Failed to fetch user profile" }, db)
    | some profile =>
      let newCredits := profile.credits + amount
      if env.profileUpdateError then
        ({ success := false, error := some "Failed to add credits" }, db)
      else
        let db1 := writeProfile db userId
          { profile with credits := newCredits, updated_at := now }
        let db2 :=
          if env.txInsertError then db1
          else { db1 with transactions := db1.transactions ++
            [{ user_id := userId
               transaction_type := transactionType
               amount := amount
               description := description
               check_in_id := jsOrNull (metadata.bind (fun m => m.checkInId))
               referral_id := jsOrNull (metadata.bind (fun m => m.referralId))
               free_credits_type := jsOrNull (metadata.bind (fun m => m.freeCreditsType))
               created_at := now }] }
        ({ success := true, newCredits := some newCredits }, db2)

/-- Result shape of recordVideoCompletion. -/
structure TagResult where
  success : Bool
  error : Option String := none
deriving DecidableEq

/-- The row filter used by recordVideoCompletion: same user, usage type,
description containing the task marker, and a still-null video id. -/
def txMatches (userId taskId : String) (r : TxRow) : Bool :=
  r.user_id == userId && r.transaction_type == "usage" &&
    strContains r.description ("Task: " ++ taskId) && r.video_id.isNone

/-- Embedding of recordVideoCompletion from the credits manager: one
supabase update over credit_transactions filtered by user id, usage
type, a like pattern on the description and a null video id; every
matching row receives the video id and a completion description.  The
update carries no ordering and no limit, and the row count is not
checked: zero matching rows still yield success. -/
def recordVideoCompletion (env : Env) (db : DB) (userId taskId videoId : String) :
    TagResult × DB :=
  if env.txUpdateError then
    ({ success := false, error := some "Failed to update transaction record" }, db)
  else
    ({ success := true },
     { db with transactions := db.transactions.map (fun r =>
        if txMatches userId taskId r then
          { r with
            video_id := some videoId
            description := "Video generation completed - Task: " ++ taskId ++ ", Video: " ++ videoId }
        else r) })

/-- Outcome of a single downloadVideo call, as decided by the remote
server: success with a byte count, a non-200 status, a request or file
stream error, or the five-minute inactivity timeout. -/
inductive DlOutcome where
  | ok (size : Nat)
  | httpErr (code : Nat)
  | reqErr
  | fileErr
  | timeout
deriving DecidableEq

/-- Metadata handed to the pipeline. -/
structure VideoMetadata where
  taskId : String
  userId : Option String := none
deriving DecidableEq

/-- Embedding of downloadVideo from the video processor over a file
system modelled as the list of existing file paths.  Opening the write
stream creates the file; on success the path and size are returned with
the file present; a request or stream error unlinks the file before
rejecting; a non-200 status and the timeout reject without unlinking. -/
def downloadVideo (fs : List String) (tempDir fileName : String)
    (outcome : DlOutcome) : Except String (String × Nat) × List String :=
  let filePath := tempDir ++ "/" ++ fileName
  let fs1 := fs.insert filePath
  match outcome with
  | .ok size => (.ok (filePath, size), fs1)
  | .httpErr code => (.error ("HTTP " ++ toString code), fs1)
  | .reqErr => (.error "request error", fs1.erase filePath)
  | .fileErr => (.error "file stream error", fs1.erase filePath)
  | .timeout => (.error "Download timeout", fs1)

/-- Result shape of processKieVideoAndThumbnail. -/
structure VideoProcessingResult where
  videoUrl : String
  thumbnailUrl : String
  videoFileSize : Nat
  thumbnailFileSize : Nat
  localVideoPath : String
  localThumbnailPath : String
deriving DecidableEq

/-- Fault environment of one pipeline run: the temp directory and
timestamp chosen at the start, the outcome of each download, of each
object-storage upload, of the catalog insert, and of the ledger-tagging
update. -/
structure PipelineEnv where
  tempDir : String
  timestamp : Nat
  videoDl : DlOutcome
  thumbDl : DlOutcome
  videoUpOk : Bool
  thumbUpOk : Bool
  r2Base : String
  dbSaveOk : Bool
  savedVideoId : String
  tagEnv : Env
deriving DecidableEq

/-- The video temp file name chosen by processKieVideoAndThumbnail. -/
def videoTempName (p : PipelineEnv) (taskId : String) : String :=
  "kie-video-" ++ taskId ++ "-" ++ toString p.timestamp ++ ".mp4"

/-- The thumbnail temp file name chosen by processKieVideoAndThumbnail. -/
def thumbTempName (p : PipelineEnv) (taskId : String) : String :=
  "kie-thumbnail-" ++ taskId ++ "-" ++ toString p.timestamp ++ ".jpg"

/-- Embedding of processKieVideoAndThumbnail from the video processor.
Both downloads are started together, so the side effects of both occur
even when one of them fails; the two local path variables are assigned
only after the joint await succeeds, so when either download rejects the
catch block sees both paths still null and removes nothing.  After both
downloads succeed the paths are assigned; an upload failure then reaches
the catch block with the paths set and both existing files are removed
before the error is rethrown.  On full success the temp files are left
in place for the caller. -/
def processKieVideoAndThumbnail (env : PipelineEnv) (fs : List String)
    (meta : VideoMetadata) : Except String VideoProcessingResult × List String :=
  let vName := videoTempName env meta.taskId
  let tName := thumbTempName env meta.taskId
  let (vRes, fs1) := downloadVideo fs env.tempDir vName env.videoDl
  let (tRes, fs2) := downloadVideo fs1 env.tempDir tName env.thumbDl
  match vRes, tRes with
  | .error e, _ => (.error e, fs2)
  | .ok _, .error e => (.error e, fs2)
  | .ok (vPath, vSize), .ok (tPath, tSize) =>
    if env.videoUpOk && env.thumbUpOk then
      (.ok
        { videoUrl := env.r2Base ++ "/videos/video-" ++ toString env.timestamp ++ "-" ++
            meta.taskId.take 8 ++ ".mp4"
          thumbnailUrl := env.r2Base ++ "/thumbnails/thumb-" ++ toString env.timestamp ++ "-" ++
            meta.taskId.take 8 ++ ".jpg"
          videoFileSize := vSize
          thumbnailFileSize := tSize
          localVideoPath := vPath
          localThumbnailPath := tPath }, fs2)
    else
      (.error "upload failed", (fs2.erase vPath).erase tPath)

/-- A row of the videos catalog table, restricted to the columns the
pipeline fills from its inputs. -/
structure VideoRow where
  id : String
  user_id : Option String
  task_id : String
  status : String
  credit_cost : Int
  preview_url : String
  download_url : String
  thumbnail_url : String
  file_size : Nat
deriving DecidableEq

/-- Embedding of saveVideoToDatabase from the video processor: insert
one catalog row and return its generated id; a failing insert (or one
returning no row) throws. -/
def saveVideoToDatabase (env : PipelineEnv) (videos : List VideoRow)
    (pr : VideoProcessingResult) (meta : VideoMetadata) :
    Except String (String × List VideoRow) :=
  if env.dbSaveOk then
    .ok (env.savedVideoId,
      videos ++ [{
        id := env.savedVideoId
        user_id := meta.userId
        task_id := meta.taskId
        status := "ready"
        credit_cost := 20
        preview_url := pr.videoUrl
        download_url := pr.videoUrl
        thumbnail_url := pr.thumbnailUrl
        file_size := pr.videoFileSize }])
  else .error "Failed to save video to database"

/-- Embedding of cleanupTempFiles: unlink each listed path that exists. -/
def cleanupTempFiles (fs : List String) (filePaths : List String) : List String :=
  filePaths.foldl (fun acc p => acc.erase p) fs

/-- Joint state threaded through completeVideoProcessing: the local file
system, the videos catalog table, and the credits database. -/
structure PState where
  fs : List String
  videos : List VideoRow
  db : DB
deriving DecidableEq

/-- Result shape of completeVideoProcessing. -/
structure CompleteOk where
  videoId : String
  videoUrl : String
  thumbnailUrl : String
deriving DecidableEq

/-- Embedding of completeVideoProcessing from the video processor: run
the fetch-and-publish stage, persist the catalog row, then tag the
ledger when a user id is present (a tagging failure is logged only),
then delete both temp files and return.  When the fetch-and-publish
stage itself throws, the local processingResult variable is still null
and the catch block deletes nothing; when the catalog insert throws,
both temp files are deleted before the error is rethrown. -/
def completeVideoProcessing (env : PipelineEnv) (st : PState)
    (meta : VideoMetadata) : Except String CompleteOk × PState :=
  let (pRes, fs1) := processKieVideoAndThumbnail env st.fs meta
  match pRes with
  | .error e => (.error e, { st with fs := fs1 })
  | .ok pr =>
    match saveVideoToDatabase env st.videos pr meta with
    | .error e =>
      (.error e, { st with fs := cleanupTempFiles fs1 [pr.localVideoPath, pr.localThumbnailPath] })
    | .ok (videoId, videos1) =>
      let db1 :=
        if optTruthy meta.userId then
          (recordVideoCompletion env.tagEnv st.db (meta.userId.getD "") meta.taskId videoId).2
        else st.db
      let fs2 := cleanupTempFiles fs1 [pr.localVideoPath, pr.localThumbnailPath]
      (.ok { videoId := videoId, videoUrl := pr.videoUrl, thumbnailUrl := pr.thumbnailUrl },
       { fs := fs2, videos := videos1, db := db1 })

/-- Shape of a parsed 2xx checkout-creation response body as read by
CreemPaymentClient.createCheckout: the three possible url fields, the
checkout id, and the status.  An absent JSON field is none; JS treats an
absent or empty field as falsy. -/
structure CheckoutResponseBody where
  payment_url : Option String := none
  url : Option String := none
  checkout_url : Option String := none
  id : String
  status : Option String := none
deriving DecidableEq

/-- Result shape of a successful createCheckout call. -/
structure CreateCheckoutResult where
  checkout_id : String
  payment_url : String
  status : String
deriving DecidableEq

/-- Embedding of the success path of CreemPaymentClient.createCheckout
after a 2xx response (payment client, lines 172-190): when any of
payment_url, url, checkout_url is truthy, the payment url is the first
truthy of the three; otherwise it is built from the configured payment
base url (getPaymentConfig().paymentUrl, passed here as a parameter), a
slash, and the returned id; the status defaults to pending. -/
def createCheckoutSuccess (configPaymentUrl : String)
    (data : CheckoutResponseBody) : CreateCheckoutResult :=
  { checkout_id := data.id
    payment_url :=
      if optTruthy (jsOrStr (jsOrStr data.payment_url data.url) data.checkout_url) then
        (jsOrStr (jsOrStr data.payment_url data.url) data.checkout_url).getD ""
      else configPaymentUrl ++ "/" ++ data.id
    status := if optTruthy data.status then data.status.getD "" else "pending" }

/-! Helper definitions naming the values written by the successful
branches of the ledger operations, and concrete instances used by the
witness and counterexample theorems. -/

/-- The profile value written by a successful deduct. -/
def deductProfile (p : Profile) (amount : Int) : Profile :=
  { p with
    credits := p.credits - amount
    total_credits_spent := some (p.total_credits_spent.getD 0 + amount)
    total_videos_created := some (p.total_videos_created.getD 0 + 1) }

/-- The transaction row inserted by a successful deduct. -/
def deductRow (u : String) (amount : Int) (d : String) (taskId : Option String)
    (now : Nat) : TxRow :=
  { user_id := u
    transaction_type := "usage"
    amount := -amount
    description := if optTruthy taskId then d ++ " - Task: " ++ taskId.getD "" else d
    task_id := taskId
    created_at := now }

/-- The profile value written by a successful refund. -/
def refundProfile (p : Profile) (amount : Int) : Profile :=
  { p with
    credits := p.credits + amount
    total_credits_spent := some (max 0 (p.total_credits_spent.getD 0 - amount)) }

/-- The transaction row inserted by a successful refund. -/
def refundRow (u : String) (amount : Int) (d : String) (taskId videoId : Option String)
    (now : Nat) : TxRow :=
  { user_id := u
    video_id := jsOrNull videoId
    transaction_type := "refund"
    amount := amount
    description := if optTruthy taskId then d ++ " - Task: " ++ taskId.getD "" else d
    task_id := taskId
    created_at := now }

/-- The profile value written by a successful addCredits. -/
def addProfile (p : Profile) (amount : Int) (now : Nat) : Profile :=
  { p with credits := p.credits + amount, updated_at := now }

/-- The transaction row inserted by a successful addCredits. -/
def addRow (u : String) (amount : Int) (d : String) (transactionType : String)
    (metadata : Option AddMeta) (now : Nat) : TxRow :=
  { user_id := u
    transaction_type := transactionType
    amount := amount
    description := d
    check_in_id := jsOrNull (metadata.bind (fun m => m.checkInId))
    referral_id := jsOrNull (metadata.bind (fun m => m.referralId))
    free_credits_type := jsOrNull (metadata.bind (fun m => m.freeCreditsType))
    created_at := now }

/-- Fault-free environment. -/
def envOk : Env :=
  { profileFetchError := false, profileUpdateError := false
    txInsertError := false, txUpdateError := false }

/-- Environment in which only the transaction insert fails. -/
def envInsFail : Env :=
  { profileFetchError := false, profileUpdateError := false
    txInsertError := true, txUpdateError := false }

/-- A sample profile with balance 100. -/
def pEx : Profile :=
  { credits := 100, total_credits_spent := some 20, total_videos_created := some 3
    updated_at := 5, otherCols := [("email", "u1@example.com")] }

/-- A sample database holding one user. -/
def dbEx : DB := { profiles := [("u1", pEx)], transactions := [] }

/-- A newer and an older untagged usage row for the same user and task. -/
def rowNewer : TxRow :=
  { user_id := "u1", transaction_type := "usage", amount := -30
    description := "video gen - Task: t1", task_id := some "t1", created_at := 2 }

def rowOlder : TxRow :=
  { user_id := "u1", transaction_type := "usage", amount := -30
    description := "video gen - Task: t1", task_id := some "t1", created_at := 1 }

/-- A database holding two untagged usage rows for the same task. -/
def dbTwoRows : DB := { profiles := [("u1", pEx)], transactions := [rowNewer, rowOlder] }

/-- Pipeline environment for the paired-download failure scenario: the
video download succeeds while the thumbnail download gets a 404. -/
def pEnvThumbFail : PipelineEnv :=
  { tempDir := "/tmp", timestamp := 9, videoDl := .ok 100, thumbDl := .httpErr 404
    videoUpOk := true, thumbUpOk := true, r2Base := "https://r2.example.com"
    dbSaveOk := true, savedVideoId := "vid-1", tagEnv := envOk }

/-- Fully successful pipeline environment. -/
def pEnvAllOk : PipelineEnv :=
  { tempDir := "/tmp", timestamp := 9, videoDl := .ok 100, thumbDl := .ok 10
    videoUpOk := true, thumbUpOk := true, r2Base := "https://r2.example.com"
    dbSaveOk := true, savedVideoId := "vid-1", tagEnv := envOk }

/-- Sample pipeline metadata for task task-1 and user u1. -/
def metaEx : VideoMetadata := { taskId := "task-1", userId := some "u1" }

/-- An initial pipeline state with an empty temp directory, an empty
catalog, and the sample credits database. -/
def pStateEx : PState := { fs := [], videos := [], db := dbEx }

/-- A checkout response carrying a payment_url field. -/
def bodyWithUrl : CheckoutResponseBody :=
  { payment_url := some "https://pay.example.com/s1", id := "ch_1" }

/-- A checkout response carrying none of the three url fields. -/
def bodyNoUrl : CheckoutResponseBody := { id := "ch_2" }

/-! Helper lemmas. -/

theorem data_append (s t : String) : (s ++ t).data = s.data ++ t.data := rfl

theorem listStartsWith_refl (l : List Char) : listStartsWith l l = true := by
  induction l with
  | nil => rfl
  | cons a as ih => simp [listStartsWith, ih]

theorem listContainsSub_append_self (pre ns : List Char) :
    listContainsSub (pre ++ ns) ns = true := by
  induction pre with
  | nil =>
    cases ns with
    | nil => rfl
    | cons b bs => simp [listContainsSub, listStartsWith_refl]
  | cons a as ih => simp [listContainsSub, ih]

/-- The deduct and refund description format contains the task marker. -/
theorem strContains_taskTag (d t : String) :
    strContains (d ++ " - Task: " ++ t) ("Task: " ++ t) = true := by
  have hsplit : (" - Task: " : String).data =
      (" - " : String).data ++ ("Task: " : String).data := by decide
  unfold strContains
  rw [data_append, data_append, data_append, hsplit]
  have h := listContainsSub_append_self (d.data ++ (" - " : String).data)
    (("Task: " : String).data ++ t.data)
  simpa [List.append_assoc] using h

theorem find?_map_update (l : List (String × Profile)) (u : String) (q : Profile)
    (p : String × Profile) (h : l.find? (fun x => x.1 == u) = some p) :
    (l.map (fun x => if x.1 == u then (x.1, q) else x)).find? (fun x => x.1 == u) =
      some (u, q) := by
  induction l with
  | nil => simp at h
  | cons a as ih =>
    rw [List.map_cons]
    by_cases hk : (a.1 == u) = true
    · have ha : a.1 = u := by simpa using hk
      subst ha
      rw [if_pos hk]
      exact List.find?_cons_of_pos _ hk
    · rw [if_neg hk,
        @List.find?_cons_of_neg _ (fun x => x.1 == u) a
          (List.map (fun x => if x.1 == u then (x.1, q) else x) as) hk]
      apply ih
      rw [@List.find?_cons_of_neg _ (fun x => x.1 == u) a as hk] at h
      exact h

/-- Writing a profile that exists makes the written value the one read back. -/
theorem lookupProfile_writeProfile (db : DB) (u : String) (p q : Profile)
    (hp : lookupProfile db u = some p) :
    lookupProfile (writeProfile db u q) u = some q := by
  unfold lookupProfile writeProfile
  cases hfind : db.profiles.find? (fun y => y.1 == u) with
  | none =>
    unfold lookupProfile at hp
    rw [hfind] at hp
    simp at hp
  | some x =>
    dsimp only
    rw [find?_map_update db.profiles u q x hfind]
    rfl

theorem lookupProfile_set_transactions (db : DB) (txs : List TxRow) (u : String) :
    lookupProfile { db with transactions := txs } u = lookupProfile db u := rfl

/-- Reading back a written profile through a state whose transactions
were further extended. -/
theorem lookupProfile_write_set (db : DB) (u : String) (p q : Profile)
    (txs : List TxRow) (hp : lookupProfile db u = some p) :
    lookupProfile
      ({ profiles := (writeProfile db u q).profiles, transactions := txs } : DB) u =
      some q :=
  lookupProfile_writeProfile db u p q hp

theorem writeProfile_transactions (db : DB) (u : String) (q : Profile) :
    (writeProfile db u q).transactions = db.transactions := rfl

/-- Characterization of a deduct whose validation passes. -/
theorem deductCredits_eq (env : Env) (db : DB) (u : String) (A : Int)
    (d : String) (taskId : Option String) (now : Nat) (p : Profile)
    (he1 : env.profileFetchError = false) (he2 : env.profileUpdateError = false)
    (hp : lookupProfile db u = some p) (hnlt : ¬ (p.credits < A)) :
    deductCredits env db u A d taskId now =
      ({ success := true, remainingCredits := some (p.credits - A) },
       if env.txInsertError then writeProfile db u (deductProfile p A)
       else { profiles := (writeProfile db u (deductProfile p A)).profiles,
              transactions := db.transactions ++ [deductRow u A d taskId now] }) := by
  simp [deductCredits, he1, he2, hp, hnlt, deductProfile, deductRow, writeProfile]

/-- Characterization of an addCredits call whose profile read succeeds. -/
theorem addCredits_eq (env : Env) (db : DB) (u : String) (A : Int)
    (d transactionType : String) (metadata : Option AddMeta) (now : Nat) (p : Profile)
    (he1 : env.profileFetchError = false) (he2 : env.profileUpdateError = false)
    (hp : lookupProfile db u = some p) :
    addCredits env db u A d transactionType metadata now =
      ({ success := true, newCredits := some (p.credits + A) },
       if env.txInsertError then writeProfile db u (addProfile p A now)
       else { profiles := (writeProfile db u (addProfile p A now)).profiles,
              transactions := db.transactions ++ [addRow u A d transactionType metadata now] }) := by
  simp [addCredits, he1, he2, hp, addProfile, addRow, writeProfile]

/-- Characterization of a refundCredits call whose profile read succeeds. -/
theorem refundCredits_eq (env : Env) (db : DB) (u : String) (A : Int)
    (d : String) (taskId videoId : Option String) (now : Nat) (p : Profile)
    (he1 : env.profileFetchError = false) (he2 : env.profileUpdateError = false)
    (hp : lookupProfile db u = some p) :
    refundCredits env db u A d taskId videoId now =
      ({ success := true, newCredits := some (p.credits + A) },
       if env.txInsertError then writeProfile db u (refundProfile p A)
       else { profiles := (writeProfile db u (refundProfile p A)).profiles,
              transactions := db.transactions ++ [refundRow u A d taskId videoId now] }) := by
  simp [refundCredits, he1, he2, hp, refundProfile, refundRow, writeProfile]

/-! Claim theorems. -/

/-- C1: for every user whose profile read succeeds with balance B and
every amount A with B at least A, deductCredits returns success with
remaining credits B - A, writes the profile credits column to B - A, and
appends one credit transaction row of type usage with amount -A whose
description contains the task marker whenever a (nonempty) task id is
supplied. -/
theorem deductCredits_success_spec (env : Env) (db : DB) (u : String)
    (A B : Int) (d : String) (taskId : Option String) (now : Nat) (p : Profile)
    (he1 : env.profileFetchError = false) (he2 : env.profileUpdateError = false)
    (he3 : env.txInsertError = false)
    (hp : lookupProfile db u = some p) (hB : p.credits = B) (hBA : A ≤ B) :
    (deductCredits env db u A d taskId now).1.success = true ∧
    (deductCredits env db u A d taskId now).1.remainingCredits = some (B - A) ∧
    (lookupProfile (deductCredits env db u A d taskId now).2 u).map Profile.credits =
      some (B - A) ∧
    ∃ row : TxRow,
      (deductCredits env db u A d taskId now).2.transactions = db.transactions ++ [row] ∧
      row.transaction_type = "usage" ∧ row.amount = -A ∧
      (∀ t : String, taskId = some t → t ≠ "" →
        strContains row.description ("Task: " ++ t) = true) := by
  have hnlt : ¬ (p.credits < A) := by rw [hB]; exact not_lt.mpr hBA
  have heq := deductCredits_eq env db u A d taskId now p he1 he2 hp hnlt
  rw [heq, he3]
  refine ⟨rfl, by rw [hB], ?_, deductRow u A d taskId now, ?_, rfl, rfl, ?_⟩
  · have h1 : lookupProfile
        ({ profiles := (writeProfile db u (deductProfile p A)).profiles,
           transactions := db.transactions ++ [deductRow u A d taskId now] } : DB) u =
        lookupProfile (writeProfile db u (deductProfile p A)) u := rfl
    rw [if_neg (by simp), h1, lookupProfile_writeProfile db u p _ hp]
    simp [deductProfile, hB]
  · simp
  · intro t ht hne
    subst ht
    have htruthy : optTruthy (some t) = true := by
      simp [optTruthy, hne]
    simp only [deductRow, htruthy, if_pos, Option.getD_some]
    exact strContains_taskTag d t

/-- C1 witness: a user with credits 100 deducting 30 for task task-1. -/
theorem deductCredits_success_spec_witness :
    (deductCredits envOk dbEx "u1" 30 "video gen" (some "task-1") 7).1.success = true ∧
    (deductCredits envOk dbEx "u1" 30 "video gen" (some "task-1") 7).1.remainingCredits =
      some (100 - 30) ∧
    (lookupProfile (deductCredits envOk dbEx "u1" 30 "video gen" (some "task-1") 7).2 "u1").map
      Profile.credits = some (100 - 30) ∧
    ∃ row : TxRow,
      (deductCredits envOk dbEx "u1" 30 "video gen" (some "task-1") 7).2.transactions =
        dbEx.transactions ++ [row] ∧
      row.transaction_type = "usage" ∧ row.amount = -30 ∧
      (∀ t : String, (some "task-1" : Option String) = some t → t ≠ "" →
        strContains row.description ("Task: " ++ t) = true) :=
  deductCredits_success_spec envOk dbEx "u1" 30 100 "video gen" (some "task-1") 7 pEx
    rfl rfl rfl rfl rfl (by decide)

/-- C2: for every user whose profile read succeeds with balance B and
every amount A with B strictly below A, deductCredits returns a failure
naming insufficient credits and performs no write at all: the whole
database state, profiles and transactions alike, is unchanged. -/
theorem deductCredits_insufficient_spec (env : Env) (db : DB) (u : String)
    (A B : Int) (d : String) (taskId : Option String) (now : Nat) (p : Profile)
    (he1 : env.profileFetchError = false)
    (hp : lookupProfile db u = some p) (hB : p.credits = B) (hlt : B < A) :
    (deductCredits env db u A d taskId now).1.success = false ∧
    (deductCredits env db u A d taskId now).1.error = some "Insufficient credits" ∧
    (deductCredits env db u A d taskId now).2 = db := by
  have h : p.credits < A := by rw [hB]; exact hlt
  simp [deductCredits, he1, hp, h]

/-- C2 witness: a user with credits 100 deducting 130. -/
theorem deductCredits_insufficient_spec_witness :
    (deductCredits envOk dbEx "u1" 130 "video gen" (some "task-1") 7).1.success = false ∧
    (deductCredits envOk dbEx "u1" 130 "video gen" (some "task-1") 7).1.error =
      some "Insufficient credits" ∧
    (deductCredits envOk dbEx "u1" 130 "video gen" (some "task-1") 7).2 = dbEx :=
  deductCredits_insufficient_spec envOk dbEx "u1" 130 100 "video gen" (some "task-1") 7 pEx
    rfl rfl rfl (by decide)

/-- C10: a successful deduct updates exactly three profile columns:
credits decreases by the amount, total_credits_spent increases by the
amount with a missing value read as 0, and total_videos_created
increases by 1 with a missing value read as 0; every other column of the
profile row (updated_at and the abstract remainder otherCols) keeps its
value, and this holds independently of the ledger-insert outcome. -/
theorem deductCredits_profile_frame (env : Env) (db : DB) (u : String)
    (A : Int) (d : String) (taskId : Option String) (now : Nat) (p : Profile)
    (he1 : env.profileFetchError = false) (he2 : env.profileUpdateError = false)
    (hp : lookupProfile db u = some p) (hge : A ≤ p.credits) :
    (deductCredits env db u A d taskId now).1.success = true ∧
    lookupProfile (deductCredits env db u A d taskId now).2 u =
      some { credits := p.credits - A
             total_credits_spent := some (p.total_credits_spent.getD 0 + A)
             total_videos_created := some (p.total_videos_created.getD 0 + 1)
             updated_at := p.updated_at
             otherCols := p.otherCols } := by
  have hnlt : ¬ (p.credits < A) := not_lt.mpr hge
  have heq := deductCredits_eq env db u A d taskId now p he1 he2 hp hnlt
  rw [heq]
  refine ⟨rfl, ?_⟩
  cases h3 : env.txInsertError with
  | true =>
    rw [if_pos (by simp [h3]), lookupProfile_writeProfile db u p _ hp]
    rfl
  | false =>
    have h1 : lookupProfile
        ({ profiles := (writeProfile db u (deductProfile p A)).profiles,
           transactions := db.transactions ++ [deductRow u A d taskId now] } : DB) u =
        lookupProfile (writeProfile db u (deductProfile p A)) u := rfl
    rw [if_neg (by simp [h3]), h1, lookupProfile_writeProfile db u p _ hp]
    rfl

/-- C10 witness: the deduct of 30 from the sample profile rewrites
exactly the three counters. -/
theorem deductCredits_profile_frame_witness :
    (deductCredits envOk dbEx "u1" 30 "video gen" (some "task-1") 7).1.success = true ∧
    lookupProfile (deductCredits envOk dbEx "u1" 30 "video gen" (some "task-1") 7).2 "u1" =
      some { credits := 100 - 30
             total_credits_spent := some ((some (20 : Int)).getD 0 + 30)
             total_videos_created := some ((some (3 : Int)).getD 0 + 1)
             updated_at := 5
             otherCols := [("email", "u1@example.com")] } :=
  deductCredits_profile_frame envOk dbEx "u1" 30 "video gen" (some "task-1") 7 pEx
    rfl rfl rfl (by decide)

/-- C3: the balance write precedes the ledger insert, so when only the
ledger insert fails, addCredits still succeeds with balance B + A, a
subsequent getUserCredits reads B + A, and no transaction row appears;
the same tolerance holds for deductCredits, whose balance becomes B - A
with no row appended. -/
theorem balance_write_survives_insert_failure (env : Env) (db : DB) (u : String)
    (A B : Int) (d : String) (taskId : Option String) (now : Nat) (p : Profile)
    (he1 : env.profileFetchError = false) (he2 : env.profileUpdateError = false)
    (hins : env.txInsertError = true)
    (hp : lookupProfile db u = some p) (hB : p.credits = B) :
    (addCredits env db u A d "bonus" none now).1.success = true ∧
    (addCredits env db u A d "bonus" none now).1.newCredits = some (B + A) ∧
    (getUserCredits env (addCredits env db u A d "bonus" none now).2 u).1.credits = B + A ∧
    (addCredits env db u A d "bonus" none now).2.transactions = db.transactions ∧
    (A ≤ B →
      (deductCredits env db u A d taskId now).1.success = true ∧
      (getUserCredits env (deductCredits env db u A d taskId now).2 u).1.credits = B - A ∧
      (deductCredits env db u A d taskId now).2.transactions = db.transactions) := by
  have haeq := addCredits_eq env db u A d "bonus" none now p he1 he2 hp
  have hlkA : lookupProfile (writeProfile db u (addProfile p A now)) u =
      some (addProfile p A now) := lookupProfile_writeProfile db u p _ hp
  rw [haeq, if_pos (by simp [hins])]
  refine ⟨rfl, by rw [hB], ?_, writeProfile_transactions db u _, ?_⟩
  · simp only [getUserCredits, he1, Bool.false_eq_true, if_false, hlkA]
    simp [addProfile, hB]
  · intro hA
    have hnlt : ¬ (p.credits < A) := by rw [hB]; exact not_lt.mpr hA
    have hdeq := deductCredits_eq env db u A d taskId now p he1 he2 hp hnlt
    have hlkD : lookupProfile (writeProfile db u (deductProfile p A)) u =
        some (deductProfile p A) := lookupProfile_writeProfile db u p _ hp
    rw [hdeq, if_pos (by simp [hins])]
    refine ⟨rfl, ?_, writeProfile_transactions db u _⟩
    simp only [getUserCredits, he1, Bool.false_eq_true, if_false, hlkD]
    simp [deductProfile, hB]

/-- C3 witness: adding and deducting 30 with a failing ledger insert on
the sample database. -/
theorem balance_write_survives_insert_failure_witness :
    (addCredits envInsFail dbEx "u1" 30 "gift" "bonus" none 7).1.success = true ∧
    (addCredits envInsFail dbEx "u1" 30 "gift" "bonus" none 7).1.newCredits =
      some (100 + 30) ∧
    (getUserCredits envInsFail (addCredits envInsFail dbEx "u1" 30 "gift" "bonus" none 7).2
      "u1").1.credits = 100 + 30 ∧
    (addCredits envInsFail dbEx "u1" 30 "gift" "bonus" none 7).2.transactions =
      dbEx.transactions ∧
    ((30 : Int) ≤ 100 →
      (deductCredits envInsFail dbEx "u1" 30 "gift" (some "task-1") 7).1.success = true ∧
      (getUserCredits envInsFail (deductCredits envInsFail dbEx "u1" 30 "gift"
        (some "task-1") 7).2 "u1").1.credits = 100 - 30 ∧
      (deductCredits envInsFail dbEx "u1" 30 "gift" (some "task-1") 7).2.transactions =
        dbEx.transactions) :=
  balance_write_survives_insert_failure envInsFail dbEx "u1" 30 100 "gift"
    (some "task-1") 7 pEx rfl rfl rfl rfl rfl

/-- C9: getUserCredits never propagates a failure and never writes: the
database is returned unchanged, and on a fetch error or a missing
profile the result is credits 0 together with an error string. -/
theorem getUserCredits_error_spec (env : Env) (db : DB) (u : String)
    (h : env.profileFetchError = true ∨ lookupProfile db u = none) :
    (getUserCredits env db u).1.credits = 0 ∧
    (getUserCredits env db u).1.error = some "Failed to fetch credits" ∧
    (getUserCredits env db u).2 = db := by
  rcases h with h | h
  · simp [getUserCredits, h]
  · cases hf : env.profileFetchError with
    | true => simp [getUserCredits, hf]
    | false => simp [getUserCredits, hf, h]

/-- C9 witness: reading a missing user leaves the database unchanged and
reports 0 credits. -/
theorem getUserCredits_error_spec_witness :
    (getUserCredits envOk dbEx "missing").1.credits = 0 ∧
    (getUserCredits envOk dbEx "missing").1.error = some "Failed to fetch credits" ∧
    (getUserCredits envOk dbEx "missing").2 = dbEx :=
  getUserCredits_error_spec envOk dbEx "missing" (Or.inr (by decide))

/-- C6: for a user with nonnegative balance B, a successful refund of a
positive amount A followed by a successful deduct of A restores the
credits balance to B; total_credits_spent ends at its clamped value
(floor of zero) plus A, which equals the original value exactly when the
original value was at least A; and the refund appends a ledger row of
type refund with the positive amount A. -/
theorem refund_then_deduct_roundtrip (env : Env) (db : DB) (u : String)
    (A B : Int) (d1 d2 : String) (t1 t2 v1 : Option String) (n1 n2 : Nat) (p : Profile)
    (he1 : env.profileFetchError = false) (he2 : env.profileUpdateError = false)
    (he3 : env.txInsertError = false)
    (hp : lookupProfile db u = some p) (hB : p.credits = B)
    (hBnn : 0 ≤ B) (hApos : 0 < A) :
    (refundCredits env db u A d1 t1 v1 n1).1.success = true ∧
    (∃ row : TxRow,
      (refundCredits env db u A d1 t1 v1 n1).2.transactions = db.transactions ++ [row] ∧
      row.transaction_type = "refund" ∧ row.amount = A ∧ 0 < row.amount) ∧
    (deductCredits env (refundCredits env db u A d1 t1 v1 n1).2 u A d2 t2 n2).1.success
      = true ∧
    (lookupProfile
        (deductCredits env (refundCredits env db u A d1 t1 v1 n1).2 u A d2 t2 n2).2 u).map
      Profile.credits = some B ∧
    (lookupProfile
        (deductCredits env (refundCredits env db u A d1 t1 v1 n1).2 u A d2 t2 n2).2 u).bind
      Profile.total_credits_spent =
      some (max 0 (p.total_credits_spent.getD 0 - A) + A) ∧
    (A ≤ p.total_credits_spent.getD 0 →
      max 0 (p.total_credits_spent.getD 0 - A) + A = p.total_credits_spent.getD 0) := by
  have hreq := refundCredits_eq env db u A d1 t1 v1 n1 p he1 he2 hp
  rw [hreq, if_neg (by simp [he3])]
  dsimp only
  have hlkR := lookupProfile_write_set db u p (refundProfile p A)
    (db.transactions ++ [refundRow u A d1 t1 v1 n1]) hp
  have hnlt : ¬ ((refundProfile p A).credits < A) := by
    show ¬ (p.credits + A < A)
    omega
  have hdeq := deductCredits_eq env
    ({ profiles := (writeProfile db u (refundProfile p A)).profiles,
       transactions := db.transactions ++ [refundRow u A d1 t1 v1 n1] } : DB)
    u A d2 t2 n2 (refundProfile p A) he1 he2 hlkR hnlt
  rw [hdeq, if_neg (by simp [he3])]
  dsimp only
  refine ⟨rfl, ⟨refundRow u A d1 t1 v1 n1, rfl, rfl, rfl, hApos⟩, rfl, ?_, ?_, ?_⟩
  · rw [lookupProfile_write_set _ u (refundProfile p A)
      (deductProfile (refundProfile p A) A) _ hlkR]
    show some (p.credits + A - A) = some B
    congr 1
    omega
  · rw [lookupProfile_write_set _ u (refundProfile p A)
      (deductProfile (refundProfile p A) A) _ hlkR]
    rfl
  · intro hts
    omega

/-- C6 witness: refunding then deducting 30 on the sample profile with
balance 100 and spent total 20 (so the clamp is exercised). -/
theorem refund_then_deduct_roundtrip_witness :
    (refundCredits envOk dbEx "u1" 30 "refund gen" (some "t1") none 8).1.success = true ∧
    (∃ row : TxRow,
      (refundCredits envOk dbEx "u1" 30 "refund gen" (some "t1") none 8).2.transactions =
        dbEx.transactions ++ [row] ∧
      row.transaction_type = "refund" ∧ row.amount = 30 ∧ 0 < row.amount) ∧
    (deductCredits envOk (refundCredits envOk dbEx "u1" 30 "refund gen" (some "t1") none 8).2
      "u1" 30 "video gen" (some "t1") 9).1.success = true ∧
    (lookupProfile (deductCredits envOk
        (refundCredits envOk dbEx "u1" 30 "refund gen" (some "t1") none 8).2
        "u1" 30 "video gen" (some "t1") 9).2 "u1").map Profile.credits = some 100 ∧
    (lookupProfile (deductCredits envOk
        (refundCredits envOk dbEx "u1" 30 "refund gen" (some "t1") none 8).2
        "u1" 30 "video gen" (some "t1") 9).2 "u1").bind Profile.total_credits_spent =
      some (max 0 ((some (20 : Int)).getD 0 - 30) + 30) ∧
    ((30 : Int) ≤ (some (20 : Int)).getD 0 →
      max 0 ((some (20 : Int)).getD 0 - 30) + 30 = (some (20 : Int)).getD 0) :=
  refund_then_deduct_roundtrip envOk dbEx "u1" 30 100 "refund gen" "video gen"
    (some "t1") (some "t1") none 8 9 pEx rfl rfl rfl rfl rfl (by decide) (by decide)

/-- C5 counterexample: with two untagged usage rows for the same user
and task, the update rewrites the older row as well, so the claim that
only the most recent matching row is attached while older matching rows
are left unchanged is false on the code. -/
theorem recordVideoCompletion_updates_older_row :
    (recordVideoCompletion envOk dbTwoRows "u1" "t1" "v1").1.success = true ∧
    (recordVideoCompletion envOk dbTwoRows "u1" "t1" "v1").2.transactions.get? 1 ≠
      some rowOlder ∧
    ((recordVideoCompletion envOk dbTwoRows "u1" "t1" "v1").2.transactions.get? 1).map
      TxRow.video_id = some (some "v1") := by decide

/-- C5 (amended): the tagging update carries no ordering and no limit,
so it attaches the video id (and a completion description) to every
untagged usage row of that user whose description contains the task
marker, leaves every non-matching row unchanged, keeps the row count,
and touches no profile. -/
theorem recordVideoCompletion_tags_all_matching (env : Env) (db : DB)
    (u t v : String) (h : env.txUpdateError = false) :
    (recordVideoCompletion env db u t v).1.success = true ∧
    (recordVideoCompletion env db u t v).2.profiles = db.profiles ∧
    (∀ r ∈ db.transactions, txMatches u t r = true →
      ({ r with
         video_id := some v
         description := "Video generation completed - Task: " ++ t ++ ", Video: " ++ v } :
        TxRow) ∈ (recordVideoCompletion env db u t v).2.transactions) ∧
    (∀ r ∈ db.transactions, txMatches u t r = false →
      r ∈ (recordVideoCompletion env db u t v).2.transactions) ∧
    (recordVideoCompletion env db u t v).2.transactions.length =
      db.transactions.length := by
  simp only [recordVideoCompletion, h, Bool.false_eq_true, if_false]
  refine ⟨by trivial, by trivial, ?_, ?_, by simp⟩
  · intro r hr hm
    have hmem := List.mem_map_of_mem (fun r : TxRow =>
      if txMatches u t r then
        { r with
          video_id := some v
          description := "Video generation completed - Task: " ++ t ++ ", Video: " ++ v }
      else r) hr
    simpa [hm] using hmem
  · intro r hr hm
    have hmem := List.mem_map_of_mem (fun r : TxRow =>
      if txMatches u t r then
        { r with
          video_id := some v
          description := "Video generation completed - Task: " ++ t ++ ", Video: " ++ v }
      else r) hr
    simpa [hm] using hmem

/-- C5 witness: both matching rows of the two-row database get tagged. -/
theorem recordVideoCompletion_tags_all_matching_witness :
    (recordVideoCompletion envOk dbTwoRows "u1" "t1" "v1").1.success = true ∧
    ({ rowNewer with
       video_id := some "v1"
       description := "Video generation completed - Task: " ++ "t1" ++ ", Video: " ++ "v1" } :
      TxRow) ∈ (recordVideoCompletion envOk dbTwoRows "u1" "t1" "v1").2.transactions :=
  ⟨(recordVideoCompletion_tags_all_matching envOk dbTwoRows "u1" "t1" "v1" rfl).1,
   (recordVideoCompletion_tags_all_matching envOk dbTwoRows "u1" "t1" "v1" rfl).2.2.1
     rowNewer (by decide) (by decide)⟩

/-- C8: when no transaction row matches the user, task and null-video-id
filter, recordVideoCompletion succeeds while changing nothing; and a
pipeline run whose downloads, uploads and catalog insert succeed returns
success carrying the new catalog id, and keeps the inserted catalog row,
for every outcome of the tagging update. -/
theorem tagging_is_best_effort (env : Env) (db : DB) (u t v : String)
    (penv : PipelineEnv) (st : PState) (meta : VideoMetadata) (s1 s2 : Nat)
    (hno : ∀ r ∈ db.transactions, txMatches u t r = false)
    (henv : env.txUpdateError = false)
    (hv : penv.videoDl = .ok s1) (ht : penv.thumbDl = .ok s2)
    (hu1 : penv.videoUpOk = true) (hu2 : penv.thumbUpOk = true)
    (hdb : penv.dbSaveOk = true) :
    (recordVideoCompletion env db u t v).1.success = true ∧
    (recordVideoCompletion env db u t v).2 = db ∧
    (∃ ok : CompleteOk,
      (completeVideoProcessing penv st meta).1 = .ok ok ∧
      ok.videoId = penv.savedVideoId) ∧
    (∃ row : VideoRow,
      (completeVideoProcessing penv st meta).2.videos = st.videos ++ [row] ∧
      row.id = penv.savedVideoId ∧ row.task_id = meta.taskId) := by
  refine ⟨?_, ?_, ?_⟩
  · simp [recordVideoCompletion, henv]
  · simp only [recordVideoCompletion, henv, Bool.false_eq_true, if_false]
    have hid : db.transactions.map (fun r : TxRow =>
        if txMatches u t r then
          { r with
            video_id := some v
            description := "Video generation completed - Task: " ++ t ++ ", Video: " ++ v }
        else r) = db.transactions := by
      have hcongr : ∀ r ∈ db.transactions, (if txMatches u t r then
          ({ r with
             video_id := some v
             description := "Video generation completed - Task: " ++ t ++ ", Video: " ++ v } :
            TxRow)
        else r) = r := by
        intro r hr
        rw [if_neg (by simp [hno r hr])]
      rw [List.map_congr_left hcongr]
      exact List.map_id _
    rw [hid]
  · simp only [completeVideoProcessing, processKieVideoAndThumbnail, downloadVideo,
      saveVideoToDatabase, hv, ht, hu1, hu2, hdb, Bool.and_self, if_true]
    exact ⟨⟨_, rfl, rfl⟩, _, rfl, rfl, rfl⟩

/-- C8 witness: a fully successful run on an empty transaction table
tags nothing and still returns the new catalog id vid-1. -/
theorem tagging_is_best_effort_witness :
    (recordVideoCompletion envOk dbEx "u1" "task-1" "v1").1.success = true ∧
    (recordVideoCompletion envOk dbEx "u1" "task-1" "v1").2 = dbEx ∧
    (∃ ok : CompleteOk,
      (completeVideoProcessing pEnvAllOk pStateEx metaEx).1 = .ok ok ∧
      ok.videoId = pEnvAllOk.savedVideoId) ∧
    (∃ row : VideoRow,
      (completeVideoProcessing pEnvAllOk pStateEx metaEx).2.videos =
        pStateEx.videos ++ [row] ∧
      row.id = pEnvAllOk.savedVideoId ∧ row.task_id = metaEx.taskId) :=
  tagging_is_best_effort envOk dbEx "u1" "task-1" "v1" pEnvAllOk pStateEx metaEx 100 10
    (by decide) rfl rfl rfl rfl rfl rfl

/-- C4: the guaranteed-cleanup claim fails on the code at the
paired-download failure: when the video download succeeds and the
thumbnail download is rejected with a 404, the joint await rejects
before the local path variables are assigned, the catch blocks of both
processKieVideoAndThumbnail and completeVideoProcessing therefore delete
nothing, and the error propagates while both the fully downloaded video
temp file and the already created thumbnail temp file still exist. -/
theorem completeVideoProcessing_leaks_on_thumb_failure :
    (completeVideoProcessing pEnvThumbFail pStateEx metaEx).1 = .error "HTTP 404" ∧
    (completeVideoProcessing pEnvThumbFail pStateEx metaEx).2.fs.contains
      "/tmp/kie-video-task-1-9.mp4" = true ∧
    (completeVideoProcessing pEnvThumbFail pStateEx metaEx).2.fs.contains
      "/tmp/kie-thumbnail-task-1-9.jpg" = true :=
  ⟨rfl, by decide, by decide⟩

/-- C7: for every successful createCheckout response body, the returned
payment_url is the body payment_url field when present (present in the
JS sense: present and nonempty), otherwise its url field, otherwise its
checkout_url field; and when none of the three is present the client
does not fail but returns the configured payment base url with a slash
and the response id appended. -/
theorem createCheckout_payment_url_spec (cfg : String) (data : CheckoutResponseBody) :
    (∀ pu : String, data.payment_url = some pu → pu ≠ "" →
      (createCheckoutSuccess cfg data).payment_url = pu) ∧
    (optTruthy data.payment_url = false →
      ∀ u : String, data.url = some u → u ≠ "" →
        (createCheckoutSuccess cfg data).payment_url = u) ∧
    (optTruthy data.payment_url = false → optTruthy data.url = false →
      ∀ cu : String, data.checkout_url = some cu → cu ≠ "" →
        (createCheckoutSuccess cfg data).payment_url = cu) ∧
    (optTruthy data.payment_url = false → optTruthy data.url = false →
      optTruthy data.checkout_url = false →
      (createCheckoutSuccess cfg data).payment_url = cfg ++ "/" ++ data.id) := by
  refine ⟨?_, ?_, ?_, ?_⟩
  · intro pu hpu hne
    have h1 : optTruthy (some pu) = true := by simp [optTruthy, hne]
    simp [createCheckoutSuccess, jsOrStr, hpu, h1]
  · intro h1 u hu hne
    have h2 : optTruthy (some u) = true := by simp [optTruthy, hne]
    simp [createCheckoutSuccess, jsOrStr, h1, hu, h2]
  · intro h1 h2 cu hcu hne
    have h3 : optTruthy (some cu) = true := by simp [optTruthy, hne]
    simp [createCheckoutSuccess, jsOrStr, h1, h2, hcu, h3]
  · intro h1 h2 h3
    simp [createCheckoutSuccess, jsOrStr, h1, h2, h3]

/-- C7 witness: a body with a payment_url yields that url; a body with
none of the three url fields yields the configured base, a slash, and
the checkout id. -/
theorem createCheckout_payment_url_spec_witness :
    (createCheckoutSuccess "https://test.creem.io/checkout" bodyWithUrl).payment_url =
      "https://pay.example.com/s1" ∧
    (createCheckoutSuccess "https://test.creem.io/checkout" bodyNoUrl).payment_url =
      "https://test.creem.io/checkout" ++ "/" ++ bodyNoUrl.id :=
  ⟨(createCheckout_payment_url_spec "https://test.creem.io/checkout" bodyWithUrl).1
      "https://pay.example.com/s1" rfl (by decide),
   (createCheckout_payment_url_spec "https://test.creem.io/checkout" bodyNoUrl).2.2.2
      rfl rfl rfl⟩

end ShipFast
